import Mathlib

/-!
# ProofOK — shallow embedding and verification

A shallow embedding of `src/server/server.py` (a small Flask document-approval
service).  Each HTTP handler becomes a pure Lean function from its request
data and the server state to a rendered result and a new server state.

Modelling conventions:
* The per-token JSON record store (`save_record` / `load_record`) is a map
  `String → Option Record`; the saved PDF files are a list of
  `(token, stored filename)` pairs, so that "no file was written" is visible.
* Nondeterministic inputs of the handlers — the fresh token
  (`uuid.uuid4().hex[:12]`), the current timestamp, the request base URL,
  the client IP — are passed in as parameters.
* The email notifier (`send_email`, run via the two-worker executor with a
  bounded wait) is external I/O; its outcome is a parameter of
  `respond_form`: it completed, timed out (`FuturesTimeout`), or raised an
  exception carrying a message.
* Python `str.lower` / `str.strip` / `str.endswith` / `str.replace` are
  given structural definitions over `List Char` below (`lowerString`,
  `trimString`, `endsWithString`, `replaceChar`) so they compute inside the
  kernel; they agree with Python on the ASCII strings the code manipulates.
* Missing form fields (`request.form.get(..)` returning `None`) are `none`;
  Python coalesces them with `or ""`, modelled by `Option.getD ""`.
-/

/-- ASCII lowering of one character, as Python `str.lower` acts on the ASCII
range. -/
def asciiLowerChar (c : Char) : Char :=
  if 'A' ≤ c ∧ c ≤ 'Z' then Char.ofNat (c.toNat + 32) else c

/-- Python `s.lower()` on ASCII strings. -/
def lowerString (s : String) : String := String.mk (s.data.map asciiLowerChar)

/-- Python `s.strip()`: drop leading and trailing whitespace. -/
def trimString (s : String) : String :=
  String.mk (((s.data.dropWhile Char.isWhitespace).reverse.dropWhile
    Char.isWhitespace).reverse)

/-- Python `s.replace(target, replacement)` for a one-character target, which
is a character-wise map. -/
def replaceChar (target replacement : Char) (s : String) : String :=
  String.mk (s.data.map fun c => if c = target then replacement else c)

/-- Python `s.endswith(suffix)`. -/
def endsWithString (s suffix : String) : Bool := suffix.data.isSuffixOf s.data

/-- A response event, as built in `respond_form` (server.py lines 299-306). -/
structure Event where
  ts_utc : String
  decision : String
  comment : String
  viewer_name : String
  viewer_email : String
  ip : String
deriving Repr, DecidableEq

/-- A per-token record, as built in `upload_post` (server.py lines 186-193)
and `api_upload` (lines 222-229). -/
structure Record where
  token : String
  original_name : String
  stored_name : String
  created_utc : String
  status : String
  responses : List Event
deriving Repr, DecidableEq

/-- An uploaded file as seen by the handlers (`request.files.get("file")`):
only its client-supplied filename matters to the control flow. -/
structure UploadedFile where
  filename : String
deriving Repr, DecidableEq

/-- The server's persistent state: the JSON record per token
(`data/<token>.json`) and the saved PDFs (`uploads/<token>/<name>`). -/
structure ServerState where
  records : String → Option Record
  files : List (String × String)

/-- The state of a freshly deployed server: nothing stored. -/
def initState : ServerState := { records := fun _ => none, files := [] }

/-- `save_record(token, data)` (server.py lines 51-53). -/
def save_record (st : ServerState) (token : String) (r : Record) : ServerState :=
  { st with records := fun t => if t = token then some r else st.records t }

/-- `safe_name = original_name.replace("/", "_").replace("\\", "_")`
(server.py line 181 / 217). -/
def sanitize (s : String) : String := replaceChar '\\' '_' (replaceChar '/' '_' s)

/-- The `.pdf` extension check `f.filename.lower().endswith(".pdf")`
(server.py line 168 / 209). -/
def isPdfName (filename : String) : Bool := endsWithString (lowerString filename) ".pdf"

/-- `EMAIL_MODE`: `"off"`, `"sync"`, or anything else (the `else` branch of
server.py lines 319-338, default `"async"`). -/
inductive EmailMode
  | off
  | sync
  | async
deriving Repr, DecidableEq

/-- Outcome of the external email send: completed, `FuturesTimeout` from the
bounded wait `fut.result(timeout=SMTP_TIMEOUT)`, or an exception whose
`str` is `msg`. -/
inductive NotifyOutcome
  | completed
  | timedOut
  | exn (msg : String)
deriving Repr, DecidableEq

/-- The warning string accumulated by the email block of `respond_form`
(server.py lines 316-338).  In `sync` mode there is no future, so a raised
`FuturesTimeout` (whose `str` is empty) is caught by the generic
`except Exception` handler. -/
def notifyWarning (mode : EmailMode) (smtpTimeout : Nat) (outcome : NotifyOutcome) : String :=
  match mode with
  | .off => ""
  | .sync =>
    match outcome with
    | .completed => ""
    | .timedOut => "Email send failed: "
    | .exn msg => "Email send failed: " ++ msg
  | .async =>
    match outcome with
    | .completed => ""
    | .timedOut => s!"Email is sending in background (timeout {smtpTimeout}s)."
    | .exn msg => "Email send failed: " ++ msg

/-- Result of the form upload route: `render_template("uploaded.html", ...)`
with `ok=False` and a message, or `ok=True` with the proof link. -/
inductive UploadResult
  | errorPage (message : String)
  | successPage (url token original_name : String)
deriving Repr, DecidableEq

/-- Result of `POST /api/upload`: an HTTP error status with a JSON message,
or the success JSON with token and URL. -/
inductive ApiResult
  | err (status : Nat) (message : String)
  | ok (token url : String)
deriving Repr, DecidableEq

/-- Result of `GET /proof/<token>`: 404 or the rendered proof page. -/
inductive ProofResult
  | notFound
  | page (token original_name pdf_url : String)
deriving Repr, DecidableEq

/-- Result of `POST /respond/<token>`: `render_template("result.html", ...)`
with `ok=False` and a message, or `ok=True` with the fixed thank-you message
and the (possibly empty) warning. -/
inductive RespondResult
  | errorPage (message : String)
  | successPage (message warning : String)
deriving Repr, DecidableEq

/-- The record written by both upload routes (server.py lines 186-193 and
222-229): status `"pending"`, no responses. -/
def freshRecord (token original_name now : String) : Record :=
  { token := token
    original_name := original_name
    stored_name := sanitize original_name
    created_utc := now
    status := "pending"
    responses := [] }

/-- `POST /upload` (`upload_post`, server.py lines 165-204).  `token` is the
fresh `uuid4` token, `now` the current UTC timestamp, `base` the base URL. -/
def upload_post (file? : Option UploadedFile) (token now base : String)
    (st : ServerState) : UploadResult × ServerState :=
  match file? with
  | none => (.errorPage "Please choose a .pdf file.", st)
  | some f =>
    if isPdfName f.filename then
      let original_name := f.filename
      let r := freshRecord token original_name now
      let st1 : ServerState := { st with files := st.files ++ [(token, r.stored_name)] }
      let st2 := save_record st1 token r
      (.successPage (base ++ "/proof/" ++ token) token original_name, st2)
    else
      (.errorPage "Please choose a .pdf file.", st)

/-- `POST /api/upload` (`api_upload`, server.py lines 206-232).
`originalNameField` is `request.form.get("original_name")`; when absent the
uploaded file's filename is used (line 212). -/
def api_upload (file? : Option UploadedFile) (originalNameField : Option String)
    (token now base : String) (st : ServerState) : ApiResult × ServerState :=
  match file? with
  | none => (.err 400 "Please upload a .pdf file", st)
  | some f =>
    if isPdfName f.filename then
      let original_name := originalNameField.getD f.filename
      let r := freshRecord token original_name now
      let st1 : ServerState := { st with files := st.files ++ [(token, r.stored_name)] }
      let st2 := save_record st1 token r
      (.ok token (base ++ "/proof/" ++ token), st2)
    else
      (.err 400 "Please upload a .pdf file", st)

/-- `GET /proof/<token>` (`proof_page`, server.py lines 234-246): 404 when no
record exists, else the proof page with the PDF URL. -/
def proof_page (token : String) (st : ServerState) : ProofResult :=
  match st.records token with
  | none => .notFound
  | some r => .page token r.original_name ("/p/" ++ token ++ "/" ++ r.stored_name)

/-- The in-place mutation of `respond_form` (server.py lines 308-309):
`rec["status"] = decision; rec.setdefault("responses", []).append(event)`.
Records built by this embedding always carry a `responses` list, so the
`setdefault` is the plain list. -/
def applyDecision (r : Record) (e : Event) : Record :=
  { r with status := e.decision, responses := r.responses ++ [e] }

/-- The event dict built by `respond_form` (server.py lines 271-274 and
299-306) from the raw form fields, the client IP and the timestamp. -/
def respondEvent (decisionField commentField nameField emailField : Option String)
    (ip ts : String) : Event :=
  { ts_utc := ts
    decision := lowerString (decisionField.getD "")
    comment := trimString (commentField.getD "")
    viewer_name := trimString (nameField.getD "")
    viewer_email := trimString (emailField.getD "")
    ip := ip }

/-- `POST /respond/<token>` (`respond_form`, server.py lines 257-349).
`decisionField`, `commentField`, `nameField`, `emailField` are the raw form
fields; `ip` the resolved client IP, `ts` the current timestamp; `mode`,
`smtpTimeout` and `outcome` describe the email send.  (Python's
`decision not in ("approved", "rejected")` is the conjunction of the two
disequalities.) -/
def respond_form (token : String)
    (decisionField commentField nameField emailField : Option String)
    (ip ts : String) (mode : EmailMode) (smtpTimeout : Nat)
    (outcome : NotifyOutcome) (st : ServerState) :
    RespondResult × ServerState :=
  match st.records token with
  | none => (.errorPage "This proof link was not found.", st)
  | some r =>
    let event := respondEvent decisionField commentField nameField emailField ip ts
    if event.decision ≠ "approved" ∧ event.decision ≠ "rejected" then
      (.errorPage "Invalid decision.", st)
    else if event.decision = "rejected" ∧ event.comment = "" then
      (.errorPage "Please add a comment when rejecting.", st)
    else
      let r1 := applyDecision r event
      let st1 := save_record st token r1
      let warning := notifyWarning mode smtpTimeout outcome
      (.successPage "Thank you. Your decision was recorded." warning, st1)

/-! ## Branch characterisations of the handlers -/

/-- `respond_form` on a missing token renders the not-found error and leaves
the state untouched. -/
theorem respond_form_notFound (token : String)
    (dF cF nF eF : Option String) (ip ts : String) (mode : EmailMode)
    (smtpTimeout : Nat) (outcome : NotifyOutcome) (st : ServerState)
    (hrec : st.records token = none) :
    respond_form token dF cF nF eF ip ts mode smtpTimeout outcome st
      = (.errorPage "This proof link was not found.", st) := by
  simp [respond_form, hrec]

/-- `respond_form` with an invalid decision renders the invalid-decision
error and leaves the state untouched. -/
theorem respond_form_invalid (token : String)
    (dF cF nF eF : Option String) (ip ts : String) (mode : EmailMode)
    (smtpTimeout : Nat) (outcome : NotifyOutcome) (st : ServerState)
    (r : Record) (hrec : st.records token = some r)
    (h1 : lowerString (dF.getD "") ≠ "approved")
    (h2 : lowerString (dF.getD "") ≠ "rejected") :
    respond_form token dF cF nF eF ip ts mode smtpTimeout outcome st
      = (.errorPage "Invalid decision.", st) := by
  simp [respond_form, hrec, respondEvent, h1, h2]

/-- `respond_form` rejecting with an empty (stripped) comment renders the
missing-comment error and leaves the state untouched. -/
theorem respond_form_noComment (token : String)
    (dF cF nF eF : Option String) (ip ts : String) (mode : EmailMode)
    (smtpTimeout : Nat) (outcome : NotifyOutcome) (st : ServerState)
    (r : Record) (hrec : st.records token = some r)
    (hd : lowerString (dF.getD "") = "rejected")
    (hc : trimString (cF.getD "") = "") :
    respond_form token dF cF nF eF ip ts mode smtpTimeout outcome st
      = (.errorPage "Please add a comment when rejecting.", st) := by
  simp [respond_form, hrec, respondEvent, hd, hc]

/-- `respond_form` on an existing token with a valid decision (non-empty
stripped comment when rejecting) saves the updated record and renders the
thank-you page with the notifier's warning. -/
theorem respond_form_success (token : String)
    (dF cF nF eF : Option String) (ip ts : String) (mode : EmailMode)
    (smtpTimeout : Nat) (outcome : NotifyOutcome) (st : ServerState)
    (r : Record) (hrec : st.records token = some r)
    (hd : lowerString (dF.getD "") = "approved" ∨ lowerString (dF.getD "") = "rejected")
    (hc : lowerString (dF.getD "") = "rejected" → trimString (cF.getD "") ≠ "") :
    respond_form token dF cF nF eF ip ts mode smtpTimeout outcome st
      = (.successPage "Thank you. Your decision was recorded."
          (notifyWarning mode smtpTimeout outcome),
         save_record st token (applyDecision r (respondEvent dF cF nF eF ip ts))) := by
  have hne : ¬ (lowerString (dF.getD "") ≠ "approved" ∧
      lowerString (dF.getD "") ≠ "rejected") := by
    rcases hd with h | h <;> simp [h]
  have hne2 : ¬ (lowerString (dF.getD "") = "rejected" ∧
      trimString (cF.getD "") = "") := by
    rintro ⟨h1, h2⟩
    exact hc h1 h2
  simp only [respond_form, hrec, respondEvent]
  rw [if_neg (by simpa [respondEvent] using hne), if_neg (by simpa [respondEvent] using hne2)]

/-- Any record present after `upload_post` was either already stored or is
the fresh pending record written by the upload. -/
theorem upload_post_records_cases (file? : Option UploadedFile)
    (token now base : String) (st : ServerState) (t : String) (r1 : Record)
    (h : (upload_post file? token now base st).2.records t = some r1) :
    st.records t = some r1 ∨ ∃ name, r1 = freshRecord t name now := by
  cases file? with
  | none => exact Or.inl h
  | some f =>
    by_cases hp : isPdfName f.filename
    · simp only [upload_post, hp, if_pos, save_record] at h
      by_cases ht : t = token
      · subst ht
        simp at h
        exact Or.inr ⟨f.filename, h.symm⟩
      · simp [ht] at h
        exact Or.inl h
    · simp only [upload_post, hp] at h
      exact Or.inl h

/-- Any record present after `api_upload` was either already stored or is
the fresh pending record written by the upload. -/
theorem api_upload_records_cases (file? : Option UploadedFile)
    (nameField : Option String) (token now base : String) (st : ServerState)
    (t : String) (r1 : Record)
    (h : (api_upload file? nameField token now base st).2.records t = some r1) :
    st.records t = some r1 ∨ ∃ name, r1 = freshRecord t name now := by
  cases file? with
  | none => exact Or.inl h
  | some f =>
    by_cases hp : isPdfName f.filename
    · simp only [api_upload, hp, if_pos, save_record] at h
      by_cases ht : t = token
      · subst ht
        simp at h
        exact Or.inr ⟨nameField.getD f.filename, h.symm⟩
      · simp [ht] at h
        exact Or.inl h
    · simp only [api_upload, hp] at h
      exact Or.inl h

/-- Any record present after `respond_form` was either already stored or is
a previously stored record with one validated event appended. -/
theorem respond_form_records_cases (token : String)
    (dF cF nF eF : Option String) (ip ts : String) (mode : EmailMode)
    (smtpTimeout : Nat) (outcome : NotifyOutcome) (st : ServerState)
    (t : String) (r1 : Record)
    (h : (respond_form token dF cF nF eF ip ts mode smtpTimeout outcome st).2.records t
      = some r1) :
    st.records t = some r1 ∨
    ∃ r0 e, st.records t = some r0 ∧ r1 = applyDecision r0 e ∧
      (e.decision = "approved" ∨ e.decision = "rejected") := by
  rcases hr0 : st.records token with _ | r0
  · rw [respond_form_notFound token dF cF nF eF ip ts mode smtpTimeout outcome st hr0] at h
    exact Or.inl h
  · by_cases h1 : lowerString (dF.getD "") = "approved" ∨ lowerString (dF.getD "") = "rejected"
    · by_cases h2 : lowerString (dF.getD "") = "rejected" ∧ trimString (cF.getD "") = ""
      · rw [respond_form_noComment token dF cF nF eF ip ts mode smtpTimeout outcome st
          r0 hr0 h2.1 h2.2] at h
        exact Or.inl h
      · have hc : lowerString (dF.getD "") = "rejected" → trimString (cF.getD "") ≠ "" := by
          intro hd hcom
          exact h2 ⟨hd, hcom⟩
        rw [respond_form_success token dF cF nF eF ip ts mode smtpTimeout outcome st
          r0 hr0 h1 hc] at h
        simp only [save_record] at h
        by_cases ht : t = token
        · subst ht
          simp at h
          refine Or.inr ⟨r0, respondEvent dF cF nF eF ip ts, hr0, h.symm, ?_⟩
          simpa [respondEvent] using h1
        · simp [ht] at h
          exact Or.inl h
    · push_neg at h1
      rw [respond_form_invalid token dF cF nF eF ip ts mode smtpTimeout outcome st
        r0 hr0 h1.1 h1.2] at h
      exact Or.inl h

/-! ## Reachable states and store invariants -/

/-- Server states reachable from a fresh deployment by the system's own
operations (the two upload routes and the decision route; the GET routes do
not write). -/
inductive ReachableState : ServerState → Prop
  | init : ReachableState initState
  | upload (st : ServerState) (file? : Option UploadedFile) (token now base : String) :
      ReachableState st → ReachableState (upload_post file? token now base st).2
  | apiUpload (st : ServerState) (file? : Option UploadedFile)
      (nameField : Option String) (token now base : String) :
      ReachableState st → ReachableState (api_upload file? nameField token now base st).2
  | respond (st : ServerState) (token : String) (dF cF nF eF : Option String)
      (ip ts : String) (mode : EmailMode) (smtpTimeout : Nat) (outcome : NotifyOutcome) :
      ReachableState st →
      ReachableState (respond_form token dF cF nF eF ip ts mode smtpTimeout outcome st).2

/-- A record's status is `"pending"` when it has no responses, and otherwise
is the decision of its last response event. -/
def statusMatchesResponses (r : Record) : Prop :=
  match r.responses.getLast? with
  | none => r.status = "pending"
  | some e => r.status = e.decision

/-- Every response event of the record carries one of the two fixed decision
values. -/
def decisionsValid (r : Record) : Prop :=
  ∀ e ∈ r.responses, e.decision = "approved" ∨ e.decision = "rejected"

/-- The store invariant: every stored record has a status consistent with
its response history, and only valid decisions in that history. -/
def storeInv (st : ServerState) : Prop :=
  ∀ t r, st.records t = some r → statusMatchesResponses r ∧ decisionsValid r

theorem freshRecord_inv (token name now : String) :
    statusMatchesResponses (freshRecord token name now) ∧
      decisionsValid (freshRecord token name now) := by
  constructor
  · simp [statusMatchesResponses, freshRecord]
  · intro e he
    simp [freshRecord] at he

theorem applyDecision_inv (r : Record) (e : Event)
    (hr : decisionsValid r)
    (he : e.decision = "approved" ∨ e.decision = "rejected") :
    statusMatchesResponses (applyDecision r e) ∧ decisionsValid (applyDecision r e) := by
  constructor
  · simp [statusMatchesResponses, applyDecision, List.getLast?_concat]
  · intro e' he'
    simp only [applyDecision, List.mem_append, List.mem_singleton] at he'
    rcases he' with h | h
    · exact hr e' h
    · subst h
      exact he

/-- Every reachable state satisfies the store invariant. -/
theorem reachable_storeInv (st : ServerState) (h : ReachableState st) : storeInv st := by
  induction h with
  | init =>
    intro t r hr
    simp [initState] at hr
  | upload st file? token now base _ ih =>
    intro t r hr
    rcases upload_post_records_cases file? token now base st t r hr with h | ⟨name, hn⟩
    · exact ih t r h
    · subst hn
      exact freshRecord_inv t name now
  | apiUpload st file? nameField token now base _ ih =>
    intro t r hr
    rcases api_upload_records_cases file? nameField token now base st t r hr with h | ⟨name, hn⟩
    · exact ih t r h
    · subst hn
      exact freshRecord_inv t name now
  | respond st token dF cF nF eF ip ts mode smtpTimeout outcome _ ih =>
    intro t r hr
    rcases respond_form_records_cases token dF cF nF eF ip ts mode smtpTimeout outcome st
      t r hr with h | ⟨r0, e, hr0, hre, he⟩
    · exact ih t r h
    · subst hre
      exact applyDecision_inv r0 e (ih t r0 hr0).2 he

/-! ## Sample states used by the concrete witnesses -/

/-- A sample state holding one pending upload under token `"tok1"`. -/
def demoUploaded : ServerState :=
  (upload_post (some ⟨"a.pdf"⟩) "tok1" "now" "http://h" initState).2

theorem demoUploaded_reachable : ReachableState demoUploaded :=
  ReachableState.upload initState (some ⟨"a.pdf"⟩) "tok1" "now" "http://h"
    ReachableState.init

/-- The event recorded by the sample approval below. -/
def demoEvent : Event := respondEvent (some "approved") none none none "1.2.3.4" "ts1"

/-- The sample state after one approval of `"tok1"`. -/
def demoDecided : ServerState :=
  (respond_form "tok1" (some "approved") none none none "1.2.3.4" "ts1"
    EmailMode.off 12 NotifyOutcome.completed demoUploaded).2

theorem demoDecided_reachable : ReachableState demoDecided :=
  ReachableState.respond demoUploaded "tok1" (some "approved") none none none
    "1.2.3.4" "ts1" EmailMode.off 12 NotifyOutcome.completed demoUploaded_reachable

/-! ## Claims -/

/-- C1: for every decision submission on an existing token with a valid
decision (non-empty stripped comment when rejecting), the updated record is
saved to the per-token store whatever the notifier does — the state after a
notifier failure, exception or timeout is exactly the state after a
completed send — and the handler still renders the success page, the
notifier outcome contributing only the warning string. -/
theorem C1_notifier_never_blocks_persistence
    (st : ServerState) (token : String) (r : Record)
    (hrec : st.records token = some r)
    (dF cF nF eF : Option String) (ip ts : String)
    (mode : EmailMode) (smtpTimeout : Nat) (outcome : NotifyOutcome)
    (hd : lowerString (dF.getD "") = "approved" ∨ lowerString (dF.getD "") = "rejected")
    (hc : lowerString (dF.getD "") = "rejected" → trimString (cF.getD "") ≠ "") :
    (respond_form token dF cF nF eF ip ts mode smtpTimeout outcome st).2.records token
      = some (applyDecision r (respondEvent dF cF nF eF ip ts)) ∧
    (respond_form token dF cF nF eF ip ts mode smtpTimeout outcome st).2
      = (respond_form token dF cF nF eF ip ts mode smtpTimeout
          NotifyOutcome.completed st).2 ∧
    (respond_form token dF cF nF eF ip ts mode smtpTimeout outcome st).1
      = .successPage "Thank you. Your decision was recorded."
          (notifyWarning mode smtpTimeout outcome) := by
  rw [respond_form_success token dF cF nF eF ip ts mode smtpTimeout outcome st r hrec hd hc,
      respond_form_success token dF cF nF eF ip ts mode smtpTimeout
        NotifyOutcome.completed st r hrec hd hc]
  refine ⟨?_, rfl, rfl⟩
  simp [save_record]

theorem C1_witness :
    (respond_form "tok1" (some "approved") none none none "ip" "ts" EmailMode.async 12
        (NotifyOutcome.exn "boom") demoUploaded).2.records "tok1"
      = some (applyDecision (freshRecord "tok1" "a.pdf" "now")
          (respondEvent (some "approved") none none none "ip" "ts")) ∧
    (respond_form "tok1" (some "approved") none none none "ip" "ts" EmailMode.async 12
        (NotifyOutcome.exn "boom") demoUploaded).2
      = (respond_form "tok1" (some "approved") none none none "ip" "ts" EmailMode.async 12
          NotifyOutcome.completed demoUploaded).2 ∧
    (respond_form "tok1" (some "approved") none none none "ip" "ts" EmailMode.async 12
        (NotifyOutcome.exn "boom") demoUploaded).1
      = .successPage "Thank you. Your decision was recorded."
          (notifyWarning EmailMode.async 12 (NotifyOutcome.exn "boom")) :=
  C1_notifier_never_blocks_persistence demoUploaded "tok1"
    (freshRecord "tok1" "a.pdf" "now") (by decide)
    (some "approved") none none none "ip" "ts" EmailMode.async 12
    (NotifyOutcome.exn "boom") (by decide) (by decide)

/-- C2: a successful upload — form or API, with a filename ending in `.pdf`
case-insensitively — stores a record with status `"pending"` and an empty
response list under the fresh token, and the returned link's token is
retrievable: `GET /proof/<token>` finds the record and is not a 404. -/
theorem C2_upload_retrievable (st : ServerState) (f : UploadedFile)
    (nameField : Option String) (token now base : String)
    (_hfresh : st.records token = none)
    (hpdf : isPdfName f.filename = true) :
    ((upload_post (some f) token now base st).1
        = .successPage (base ++ "/proof/" ++ token) token f.filename ∧
      (upload_post (some f) token now base st).2.records token
        = some (freshRecord token f.filename now) ∧
      (freshRecord token f.filename now).status = "pending" ∧
      (freshRecord token f.filename now).responses = [] ∧
      proof_page token (upload_post (some f) token now base st).2 ≠ .notFound) ∧
    ((api_upload (some f) nameField token now base st).1
        = .ok token (base ++ "/proof/" ++ token) ∧
      (api_upload (some f) nameField token now base st).2.records token
        = some (freshRecord token (nameField.getD f.filename) now) ∧
      (freshRecord token (nameField.getD f.filename) now).status = "pending" ∧
      (freshRecord token (nameField.getD f.filename) now).responses = [] ∧
      proof_page token (api_upload (some f) nameField token now base st).2 ≠ .notFound) := by
  have h1 : (upload_post (some f) token now base st).2.records token
      = some (freshRecord token f.filename now) := by
    simp [upload_post, hpdf, save_record]
  have h2 : (api_upload (some f) nameField token now base st).2.records token
      = some (freshRecord token (nameField.getD f.filename) now) := by
    simp [api_upload, hpdf, save_record]
  refine ⟨⟨?_, h1, rfl, rfl, ?_⟩, ⟨?_, h2, rfl, rfl, ?_⟩⟩
  · simp [upload_post, hpdf]
  · simp [proof_page, h1]
  · simp [api_upload, hpdf]
  · simp [proof_page, h2]

theorem C2_witness :
    initState.records "tok1" = none ∧ isPdfName "A.PDF" = true ∧
    (upload_post (some ⟨"A.PDF"⟩) "tok1" "now" "http://h" initState).2.records "tok1"
      = some (freshRecord "tok1" "A.PDF" "now") ∧
    proof_page "tok1" (upload_post (some ⟨"A.PDF"⟩) "tok1" "now" "http://h" initState).2
      ≠ .notFound ∧
    (api_upload (some ⟨"A.PDF"⟩) (some "mock/v2.pdf") "tok2" "now" "http://h"
        initState).2.records "tok2"
      = some (freshRecord "tok2" "mock/v2.pdf" "now") ∧
    proof_page "tok2" (api_upload (some ⟨"A.PDF"⟩) (some "mock/v2.pdf") "tok2" "now"
        "http://h" initState).2 ≠ .notFound := by
  have hform := C2_upload_retrievable initState ⟨"A.PDF"⟩ (some "mock/v2.pdf")
    "tok1" "now" "http://h" (by decide) (by decide)
  have hapi := C2_upload_retrievable initState ⟨"A.PDF"⟩ (some "mock/v2.pdf")
    "tok2" "now" "http://h" (by decide) (by decide)
  exact ⟨by decide, by decide, hform.1.2.1, hform.1.2.2.2.2,
    hapi.2.2.1, hapi.2.2.2.2.2⟩

/-- C3: a decision submission on an existing token with decision
`"rejected"` and a comment that strips to empty is refused with the
user-facing missing-comment message, and the whole server state — in
particular the stored record — is left unchanged. -/
theorem C3_reject_requires_comment (st : ServerState) (token : String)
    (r : Record) (hrec : st.records token = some r)
    (dF cF nF eF : Option String) (ip ts : String) (mode : EmailMode)
    (smtpTimeout : Nat) (outcome : NotifyOutcome)
    (hd : lowerString (dF.getD "") = "rejected")
    (hc : trimString (cF.getD "") = "") :
    respond_form token dF cF nF eF ip ts mode smtpTimeout outcome st
      = (.errorPage "Please add a comment when rejecting.", st) :=
  respond_form_noComment token dF cF nF eF ip ts mode smtpTimeout outcome st r hrec hd hc

theorem C3_witness :
    respond_form "tok1" (some "Rejected") (some "   ") none none "ip" "ts"
        EmailMode.off 12 NotifyOutcome.completed demoUploaded
      = (.errorPage "Please add a comment when rejecting.", demoUploaded) :=
  C3_reject_requires_comment demoUploaded "tok1" (freshRecord "tok1" "a.pdf" "now")
    (by decide) (some "Rejected") (some "   ") none none "ip" "ts"
    EmailMode.off 12 NotifyOutcome.completed (by decide) (by decide)

/-- C7: when the asynchronous send exceeds the bounded wait
(`fut.result(timeout=SMTP_TIMEOUT)` raising `FuturesTimeout`), the decision
is still persisted and the success page is rendered, with the warning
reporting that the send is still in progress. -/
theorem C7_timeout_reports_pending (st : ServerState) (token : String)
    (r : Record) (hrec : st.records token = some r)
    (dF cF nF eF : Option String) (ip ts : String) (smtpTimeout : Nat)
    (hd : lowerString (dF.getD "") = "approved" ∨ lowerString (dF.getD "") = "rejected")
    (hc : lowerString (dF.getD "") = "rejected" → trimString (cF.getD "") ≠ "") :
    (respond_form token dF cF nF eF ip ts EmailMode.async smtpTimeout
        NotifyOutcome.timedOut st).1
      = .successPage "Thank you. Your decision was recorded."
          (s!"Email is sending in background (timeout {smtpTimeout}s).") ∧
    (respond_form token dF cF nF eF ip ts EmailMode.async smtpTimeout
        NotifyOutcome.timedOut st).2.records token
      = some (applyDecision r (respondEvent dF cF nF eF ip ts)) := by
  rw [respond_form_success token dF cF nF eF ip ts EmailMode.async smtpTimeout
    NotifyOutcome.timedOut st r hrec hd hc]
  exact ⟨rfl, by simp [save_record]⟩

theorem C7_witness :
    (respond_form "tok1" (some "approved") none none none "ip" "ts" EmailMode.async 12
        NotifyOutcome.timedOut demoUploaded).1
      = .successPage "Thank you. Your decision was recorded."
          "Email is sending in background (timeout 12s)." ∧
    (respond_form "tok1" (some "approved") none none none "ip" "ts" EmailMode.async 12
        NotifyOutcome.timedOut demoUploaded).2.records "tok1"
      = some (applyDecision (freshRecord "tok1" "a.pdf" "now")
          (respondEvent (some "approved") none none none "ip" "ts")) :=
  C7_timeout_reports_pending demoUploaded "tok1" (freshRecord "tok1" "a.pdf" "now")
    (by decide) (some "approved") none none none "ip" "ts" 12 (by decide) (by decide)

/-- C8: an upload whose file is missing or whose filename does not end in
`.pdf` (case-insensitively) fails — error page on the form route, HTTP 400
JSON on the API route — and the returned server state is unchanged: no
record and no file are written. -/
theorem C8_bad_upload_writes_nothing (file? : Option UploadedFile)
    (nameField : Option String) (token now base : String) (st : ServerState)
    (hbad : ∀ f, file? = some f → isPdfName f.filename = false) :
    upload_post file? token now base st = (.errorPage "Please choose a .pdf file.", st) ∧
    api_upload file? nameField token now base st
      = (.err 400 "Please upload a .pdf file", st) := by
  cases file? with
  | none => exact ⟨rfl, rfl⟩
  | some f =>
    have h := hbad f rfl
    constructor
    · simp [upload_post, h]
    · simp [api_upload, h]

theorem C8_witness :
    upload_post (some ⟨"notes.pdf.txt"⟩) "tok9" "now" "http://h" demoUploaded
      = (.errorPage "Please choose a .pdf file.", demoUploaded) ∧
    api_upload (some ⟨"notes.pdf.txt"⟩) none "tok9" "now" "http://h" demoUploaded
      = (.err 400 "Please upload a .pdf file", demoUploaded) :=
  C8_bad_upload_writes_nothing (some ⟨"notes.pdf.txt"⟩) none "tok9" "now" "http://h"
    demoUploaded (by decide)

/-- C10: on the API route, when the optional `original_name` form field is
supplied and the uploaded file's filename passes the `.pdf` check, both the
record's `original_name` and its sanitised `stored_name` (and the saved
file's name) come from the form field, which is never extension-checked. -/
theorem C10_api_names_from_form_field (f : UploadedFile) (name : String)
    (token now base : String) (st : ServerState)
    (hpdf : isPdfName f.filename = true) :
    api_upload (some f) (some name) token now base st
      = (.ok token (base ++ "/proof/" ++ token),
         save_record { st with files := st.files ++ [(token, sanitize name)] } token
           (freshRecord token name now)) ∧
    (freshRecord token name now).original_name = name ∧
    (freshRecord token name now).stored_name = sanitize name := by
  refine ⟨?_, rfl, rfl⟩
  simp [api_upload, hpdf, freshRecord]

theorem C10_witness :
    isPdfName "upload.PDF" = true ∧ isPdfName (sanitize "v2/report.docx") = false ∧
    (api_upload (some ⟨"upload.PDF"⟩) (some "v2/report.docx") "tok3" "now" "http://h"
        initState).2.records "tok3"
      = some (freshRecord "tok3" "v2/report.docx" "now") ∧
    (freshRecord "tok3" "v2/report.docx" "now").stored_name = "v2_report.docx" := by
  have h := C10_api_names_from_form_field ⟨"upload.PDF"⟩ "v2/report.docx" "tok3" "now"
    "http://h" initState (by decide)
  refine ⟨by decide, by decide, ?_, by decide⟩
  rw [h.1]
  simp [save_record]

/-- C4: a decision submission on an existing token whose lower-cased
decision is neither `"approved"` nor `"rejected"` fails with the
`"Invalid decision."` message and leaves the state unchanged; and in every
reachable state, every stored response event's decision is one of the two
fixed values. -/
theorem C4_invalid_decision_rejected (st : ServerState)
    (hreach : ReachableState st) (token : String) (r : Record)
    (hrec : st.records token = some r)
    (dF cF nF eF : Option String) (ip ts : String) (mode : EmailMode)
    (smtpTimeout : Nat) (outcome : NotifyOutcome)
    (h1 : lowerString (dF.getD "") ≠ "approved")
    (h2 : lowerString (dF.getD "") ≠ "rejected") :
    respond_form token dF cF nF eF ip ts mode smtpTimeout outcome st
      = (.errorPage "Invalid decision.", st) ∧
    ∀ t r0 e, st.records t = some r0 → e ∈ r0.responses →
      e.decision = "approved" ∨ e.decision = "rejected" := by
  refine ⟨respond_form_invalid token dF cF nF eF ip ts mode smtpTimeout outcome st
    r hrec h1 h2, ?_⟩
  intro t r0 e h he
  exact (reachable_storeInv st hreach t r0 h).2 e he

theorem C4_witness :
    respond_form "tok1" (some "Maybe") none none none "ip" "ts2" EmailMode.off 12
        NotifyOutcome.completed demoDecided
      = (.errorPage "Invalid decision.", demoDecided) ∧
    (demoEvent.decision = "approved" ∨ demoEvent.decision = "rejected") := by
  have h := C4_invalid_decision_rejected demoDecided demoDecided_reachable "tok1"
    (applyDecision (freshRecord "tok1" "a.pdf" "now") demoEvent) (by decide)
    (some "Maybe") none none none "ip" "ts2" EmailMode.off 12
    NotifyOutcome.completed (by decide) (by decide)
  exact ⟨h.1, h.2 "tok1" (applyDecision (freshRecord "tok1" "a.pdf" "now") demoEvent)
    demoEvent (by decide) (by decide)⟩

/-- C5 as frozen is false on the code: submitting the same valid decision
twice does not leave the stored record in the same state as submitting it
once — the second submission appends a second copy of the event, so the
responses list differs.  Concretely, replaying an identical approval on the
sample pending upload changes the stored record. -/
theorem C5_counterexample :
    (respond_form "tok1" (some "approved") none none none "ip" "ts2" EmailMode.off 12
        NotifyOutcome.completed
        (respond_form "tok1" (some "approved") none none none "ip" "ts2" EmailMode.off 12
          NotifyOutcome.completed demoUploaded).2).2.records "tok1"
      ≠ (respond_form "tok1" (some "approved") none none none "ip" "ts2" EmailMode.off 12
          NotifyOutcome.completed demoUploaded).2.records "tok1" := by
  decide

/-- C5 amended: decisions are last-write-wins on the stored *status*: every
valid submission sets the status to the submitted decision (so after any
sequence of valid submissions the status is the most recent one), and
resubmitting the identical decision leaves the status unchanged — but each
submission appends one more event, so the full record is not idempotent. -/
theorem C5_status_last_write_wins (st : ServerState) (token : String)
    (r : Record) (hrec : st.records token = some r)
    (dF cF nF eF : Option String) (ip ts : String) (mode : EmailMode)
    (smtpTimeout : Nat) (outcome : NotifyOutcome)
    (hd : lowerString (dF.getD "") = "approved" ∨ lowerString (dF.getD "") = "rejected")
    (hc : lowerString (dF.getD "") = "rejected" → trimString (cF.getD "") ≠ "") :
    ∃ r1 r2,
      (respond_form token dF cF nF eF ip ts mode smtpTimeout outcome st).2.records token
        = some r1 ∧
      (respond_form token dF cF nF eF ip ts mode smtpTimeout outcome
          (respond_form token dF cF nF eF ip ts mode smtpTimeout outcome st).2).2.records
          token = some r2 ∧
      r1.status = lowerString (dF.getD "") ∧
      r2.status = r1.status ∧
      r2.responses = r1.responses ++ [respondEvent dF cF nF eF ip ts] := by
  have h1 := respond_form_success token dF cF nF eF ip ts mode smtpTimeout outcome st
    r hrec hd hc
  have hrec1 : (respond_form token dF cF nF eF ip ts mode smtpTimeout outcome st).2.records
      token = some (applyDecision r (respondEvent dF cF nF eF ip ts)) := by
    rw [h1]
    simp [save_record]
  have h2 := respond_form_success token dF cF nF eF ip ts mode smtpTimeout outcome
    (respond_form token dF cF nF eF ip ts mode smtpTimeout outcome st).2
    (applyDecision r (respondEvent dF cF nF eF ip ts)) hrec1 hd hc
  refine ⟨applyDecision r (respondEvent dF cF nF eF ip ts),
    applyDecision (applyDecision r (respondEvent dF cF nF eF ip ts))
      (respondEvent dF cF nF eF ip ts), hrec1, ?_, rfl, rfl, rfl⟩
  rw [h2]
  simp [save_record]

theorem C5_witness :
    ∃ r1 r2,
      (respond_form "tok1" (some "approved") none none none "ip" "ts2" EmailMode.off 12
          NotifyOutcome.completed demoUploaded).2.records "tok1" = some r1 ∧
      (respond_form "tok1" (some "approved") none none none "ip" "ts2" EmailMode.off 12
          NotifyOutcome.completed
          (respond_form "tok1" (some "approved") none none none "ip" "ts2" EmailMode.off 12
            NotifyOutcome.completed demoUploaded).2).2.records "tok1" = some r2 ∧
      r1.status = lowerString ((some "approved").getD "") ∧
      r2.status = r1.status ∧
      r2.responses = r1.responses ++ [respondEvent (some "approved") none none none "ip" "ts2"] :=
  C5_status_last_write_wins demoUploaded "tok1" (freshRecord "tok1" "a.pdf" "now")
    (by decide) (some "approved") none none none "ip" "ts2" EmailMode.off 12
    NotifyOutcome.completed (by decide) (by decide)

/-- `save_record` never removes another token's record. -/
theorem save_record_keeps (st : ServerState) (token : String) (r : Record)
    (t : String) (r0 : Record) (h : st.records t = some r0) :
    ∃ r1, (save_record st token r).records t = some r1 := by
  by_cases ht : t = token
  · exact ⟨r, by simp [save_record, ht]⟩
  · exact ⟨r0, by simp [save_record, ht, h]⟩

/-- The form upload route never removes a stored record. -/
theorem upload_post_keeps (file? : Option UploadedFile) (token now base : String)
    (st : ServerState) (t : String) (r0 : Record) (h : st.records t = some r0) :
    ∃ r1, (upload_post file? token now base st).2.records t = some r1 := by
  cases file? with
  | none => exact ⟨r0, h⟩
  | some f =>
    by_cases hp : isPdfName f.filename
    · simp only [upload_post, hp, if_pos]
      exact save_record_keeps _ token _ t r0 h
    · simp only [upload_post, hp, if_neg]
      exact ⟨r0, h⟩

/-- The API upload route never removes a stored record. -/
theorem api_upload_keeps (file? : Option UploadedFile) (nameField : Option String)
    (token now base : String) (st : ServerState) (t : String) (r0 : Record)
    (h : st.records t = some r0) :
    ∃ r1, (api_upload file? nameField token now base st).2.records t = some r1 := by
  cases file? with
  | none => exact ⟨r0, h⟩
  | some f =>
    by_cases hp : isPdfName f.filename
    · simp only [api_upload, hp, if_pos]
      exact save_record_keeps _ token _ t r0 h
    · simp only [api_upload, hp, if_neg]
      exact ⟨r0, h⟩

/-- The decision route never removes a stored record. -/
theorem respond_form_keeps (token : String) (dF cF nF eF : Option String)
    (ip ts : String) (mode : EmailMode) (smtpTimeout : Nat)
    (outcome : NotifyOutcome) (st : ServerState) (t : String) (r0 : Record)
    (h : st.records t = some r0) :
    ∃ r1, (respond_form token dF cF nF eF ip ts mode smtpTimeout outcome st).2.records t
      = some r1 := by
  rcases hr : st.records token with _ | r
  · rw [respond_form_notFound token dF cF nF eF ip ts mode smtpTimeout outcome st hr]
    exact ⟨r0, h⟩
  · by_cases h1 : lowerString (dF.getD "") = "approved" ∨ lowerString (dF.getD "") = "rejected"
    · by_cases h2 : lowerString (dF.getD "") = "rejected" ∧ trimString (cF.getD "") = ""
      · rw [respond_form_noComment token dF cF nF eF ip ts mode smtpTimeout outcome st
          r hr h2.1 h2.2]
        exact ⟨r0, h⟩
      · have hc : lowerString (dF.getD "") = "rejected" → trimString (cF.getD "") ≠ "" := by
          intro hd hcom
          exact h2 ⟨hd, hcom⟩
        rw [respond_form_success token dF cF nF eF ip ts mode smtpTimeout outcome st
          r hr h1 hc]
        exact save_record_keeps st token _ t r0 h
    · push_neg at h1
      rw [respond_form_invalid token dF cF nF eF ip ts mode smtpTimeout outcome st
        r hr h1.1 h1.2]
      exact ⟨r0, h⟩

/-- C6: the response list is append-only and records are never deleted: a
successful decision submission stores the old record with exactly one new
event appended at the end (all prior events unchanged), and none of the
system's operations removes a record from the store. -/
theorem C6_append_only_never_deleted (st : ServerState) (token : String)
    (r : Record) (hrec : st.records token = some r)
    (dF cF nF eF : Option String) (ip ts : String) (mode : EmailMode)
    (smtpTimeout : Nat) (outcome : NotifyOutcome)
    (hd : lowerString (dF.getD "") = "approved" ∨ lowerString (dF.getD "") = "rejected")
    (hc : lowerString (dF.getD "") = "rejected" → trimString (cF.getD "") ≠ "") :
    ((respond_form token dF cF nF eF ip ts mode smtpTimeout outcome st).2.records token
        = some (applyDecision r (respondEvent dF cF nF eF ip ts)) ∧
      (applyDecision r (respondEvent dF cF nF eF ip ts)).responses
        = r.responses ++ [respondEvent dF cF nF eF ip ts]) ∧
    (∀ (file? : Option UploadedFile) (tok now base t : String) (r0 : Record),
      st.records t = some r0 →
      ∃ r1, (upload_post file? tok now base st).2.records t = some r1) ∧
    (∀ (file? : Option UploadedFile) (nF2 : Option String) (tok now base t : String)
      (r0 : Record), st.records t = some r0 →
      ∃ r1, (api_upload file? nF2 tok now base st).2.records t = some r1) ∧
    (∀ (tok : String) (dF2 cF2 nF2 eF2 : Option String) (ip2 ts2 : String)
      (mode2 : EmailMode) (sT2 : Nat) (out2 : NotifyOutcome) (t : String) (r0 : Record),
      st.records t = some r0 →
      ∃ r1, (respond_form tok dF2 cF2 nF2 eF2 ip2 ts2 mode2 sT2 out2 st).2.records t
        = some r1) := by
  refine ⟨⟨?_, rfl⟩, ?_, ?_, ?_⟩
  · rw [respond_form_success token dF cF nF eF ip ts mode smtpTimeout outcome st
      r hrec hd hc]
    simp [save_record]
  · intro file? tok now base t r0 h
    exact upload_post_keeps file? tok now base st t r0 h
  · intro file? nF2 tok now base t r0 h
    exact api_upload_keeps file? nF2 tok now base st t r0 h
  · intro tok dF2 cF2 nF2 eF2 ip2 ts2 mode2 sT2 out2 t r0 h
    exact respond_form_keeps tok dF2 cF2 nF2 eF2 ip2 ts2 mode2 sT2 out2 st t r0 h

theorem C6_witness :
    ((respond_form "tok1" (some "rejected") (some "too dark") none none "ip" "ts2"
        EmailMode.off 12 NotifyOutcome.completed demoDecided).2.records "tok1"
      = some (applyDecision (applyDecision (freshRecord "tok1" "a.pdf" "now") demoEvent)
          (respondEvent (some "rejected") (some "too dark") none none "ip" "ts2")) ∧
    (applyDecision (applyDecision (freshRecord "tok1" "a.pdf" "now") demoEvent)
        (respondEvent (some "rejected") (some "too dark") none none "ip" "ts2")).responses
      = (applyDecision (freshRecord "tok1" "a.pdf" "now") demoEvent).responses
        ++ [respondEvent (some "rejected") (some "too dark") none none "ip" "ts2"]) ∧
    ∃ r1, (upload_post none "tok9" "now" "http://h" demoDecided).2.records "tok1"
      = some r1 := by
  have h := C6_append_only_never_deleted demoDecided "tok1"
    (applyDecision (freshRecord "tok1" "a.pdf" "now") demoEvent) (by decide)
    (some "rejected") (some "too dark") none none "ip" "ts2" EmailMode.off 12
    NotifyOutcome.completed (by decide) (by decide)
  exact ⟨h.1, h.2.1 none "tok9" "now" "http://h" "tok1"
    (applyDecision (freshRecord "tok1" "a.pdf" "now") demoEvent) (by decide)⟩

/-- C9: in every reachable state, every stored record's status is one of
`"pending"`, `"approved"`, `"rejected"`; it is `"pending"` exactly when the
response list is empty, and otherwise equals the decision of the last
response event. -/
theorem C9_status_consistency (st : ServerState) (hreach : ReachableState st)
    (t : String) (r : Record) (hr : st.records t = some r) :
    (r.status = "pending" ∨ r.status = "approved" ∨ r.status = "rejected") ∧
    (r.status = "pending" ↔ r.responses = []) ∧
    (∀ e, r.responses.getLast? = some e → r.status = e.decision) := by
  obtain ⟨hs, hd⟩ := reachable_storeInv st hreach t r hr
  rcases hrl : r.responses.getLast? with _ | e
  · simp only [statusMatchesResponses, hrl] at hs
    have hemp : r.responses = [] := List.getLast?_eq_none_iff.mp hrl
    refine ⟨Or.inl hs, ⟨fun _ => hemp, fun _ => hs⟩, ?_⟩
    intro e he
    cases he
  · simp only [statusMatchesResponses, hrl] at hs
    have hmem : e ∈ r.responses := List.mem_of_mem_getLast? (by simp [hrl, Option.mem_def])
    have hval := hd e hmem
    have hne : r.responses ≠ [] := by
      intro h0
      rw [h0] at hrl
      cases hrl
    refine ⟨?_, ⟨?_, fun h0 => absurd h0 hne⟩, ?_⟩
    · rcases hval with h | h
      · exact Or.inr (Or.inl (hs.trans h))
      · exact Or.inr (Or.inr (hs.trans h))
    · intro hp
      exfalso
      rcases hval with h | h <;> rw [hs, h] at hp <;> simp at hp
    · intro e' he'
      cases he'
      exact hs

theorem C9_witness :
    ((applyDecision (freshRecord "tok1" "a.pdf" "now") demoEvent).status = "pending" ∨
      (applyDecision (freshRecord "tok1" "a.pdf" "now") demoEvent).status = "approved" ∨
      (applyDecision (freshRecord "tok1" "a.pdf" "now") demoEvent).status = "rejected") ∧
    ((applyDecision (freshRecord "tok1" "a.pdf" "now") demoEvent).status = "pending" ↔
      (applyDecision (freshRecord "tok1" "a.pdf" "now") demoEvent).responses = []) ∧
    (applyDecision (freshRecord "tok1" "a.pdf" "now") demoEvent).status
      = demoEvent.decision := by
  have h := C9_status_consistency demoDecided demoDecided_reachable "tok1"
    (applyDecision (freshRecord "tok1" "a.pdf" "now") demoEvent) (by decide)
  exact ⟨h.1, h.2.1, h.2.2 demoEvent (by decide)⟩
